import Mathlib

/-!
Verification development for the response-generation core of the
matrix-gptbot repository (src/src/gptbot/classes/ai/openai.py,
src/src/gptbot/classes/ai/base.py, src/src/gptbot/classes/bot.py,
src/src/gptbot/tools/base.py).

The Python code is shallowly embedded: every provider call, tool
invocation and JSON parse performed by an external library is supplied
through an explicit environment (an oracle indexed by invocation count),
while all control flow, message-list construction, exception handling and
recursion of the Python source is translated directly.  Python exceptions
are modelled by an error type threaded through `Except`; Python `await`
recursion is modelled with a fuel parameter (the functions are otherwise
a direct transcription of the source).
-/

namespace GB

/-- Python exceptions relevant to the embedded code.  `stopProcessing` and
`handover` model the two control-flow exception classes of
src/src/gptbot/tools/base.py; `apiError` models `openai.APIError` with its
`code` attribute; `generic` models a plain `Exception` with its message. -/
inductive PyErr where
  | typeError
  | indexError
  | attributeError
  | nameError
  | keyError
  | jsonDecodeError
  | stopProcessing (arg : Option String)
  | handover
  | apiError (code : String)
  | generic (msg : String)
deriving Repr, DecidableEq

/-- One typed part of an OpenAI-style content list: a
`{"type": "text", ...}` entry or an `{"type": "image_url", ...}` entry. -/
inductive Part where
  | text (s : String)
  | imageUrl (url : String)
deriving Repr, DecidableEq

/-- `message["content"]` is either a plain string or a list of parts. -/
inductive MContent where
  | str (s : String)
  | parts (ps : List Part)
deriving Repr, DecidableEq

/-- A message dictionary: role, content and the optional
`tool_call_id` key carried by tool-role messages. -/
structure MsgDict where
  role : String
  content : MContent
  tool_call_id : Option String
deriving Repr, DecidableEq

/-- A tool call object of a provider response (`choice.message.tool_calls`
entry): correlation id, function name and JSON-encoded arguments. -/
structure ToolCallObj where
  id : String
  name : String
  arguments : String
deriving Repr, DecidableEq

/-- `choice.message` of a provider response: text content (possibly
`None`) and the list of requested tool calls (empty models both `None`
and `[]`, which are interchangeable under Python truthiness here). -/
structure ChoiceMsg where
  content : Option String
  tool_calls : List ToolCallObj
deriving Repr, DecidableEq

/-- An element of the `messages` list handled by
`generate_chat_response`: either a message dictionary or a
`ChatCompletionMessage` object (the `choice.message` value spliced in at
openai.py line 707, which is not a `dict`). -/
inductive Msg where
  | dict (d : MsgDict)
  | obj (m : ChoiceMsg)
deriving Repr, DecidableEq

/-- A provider chat-completion response: `choice.message` together with
`response.usage.total_tokens` (`none` models a missing usage object,
which the source converts to 0 via try/except at openai.py 882-885). -/
structure ProviderResp where
  msg : ChoiceMsg
  total_tokens : Option Nat
deriving Repr, DecidableEq

/-- A JSON value as produced by `json.loads`. -/
inductive JVal where
  | obj (fields : List (String × JVal))
  | str (s : String)
  | num (n : Int)
  | bool (b : Bool)
  | null
  | arr (xs : List JVal)

/-- The Python value bound to `result_text` in
`generate_chat_response`: a string, `False` or `None`. -/
inductive RText where
  | str (s : String)
  | pyFalse
  | pyNone
deriving Repr, DecidableEq

/-- Python truthiness of `result_text`: non-empty strings are truthy,
`""`, `False` and `None` are falsy. -/
def RText.truthy : RText → Bool
  | .str s => !(s == "")
  | .pyFalse => false
  | .pyNone => false

/-- Outcome of one evaluation of the expression
`await self.bot.call_tool(...)` in openai.py: a returned value
(`val none` models a returned Python `False`, `val (some s)` a value
whose `str()` is `s`) or a raised exception. -/
inductive ToolRes where
  | val (s : Option String)
  | exn (e : PyErr)
deriving Repr, DecidableEq

section RetryingExecutor

/-!
## BaseAI._request_with_retries (src/src/gptbot/classes/ai/base.py 52-76)

The wrapped `request` is modelled as a function from the invocation index
(0-based) to the outcome of that invocation.  The result records the
value returned or exception raised, the number of invocations made, and
the list of sleep durations performed (`asyncio.sleep(retry_interval)`
runs once after every failed invocation).
-/

/-- Result of `_request_with_retries`: the returned response or the
raised terminal exception, the number of calls to `request`, and the
sleep intervals performed. -/
structure RWR (α : Type) where
  result : Except PyErr α
  invocations : Nat
  sleeps : List Nat
deriving Repr

/-- The `while current_attempt <= attempts` loop of
`_request_with_retries`: `remaining` attempts are left and `calls`
invocations have already failed. -/
def rwrGo (action : Nat → Except PyErr α) (interval : Nat) :
    Nat → Nat → RWR α
  | 0, calls =>
      ⟨.error (.generic "Request failed after all attempts."), calls,
        List.replicate calls interval⟩
  | n + 1, calls =>
      match action calls with
      | .ok r => ⟨.ok r, calls + 1, List.replicate calls interval⟩
      | .error _ => rwrGo action interval n (calls + 1)

/-- `BaseAI._request_with_retries(request, attempts=5, retry_interval=2)`:
invoke `action`, and on any exception sleep `retry_interval` seconds and
retry, up to `attempts` total tries; after exhausting attempts raise
`Exception("Request failed after all attempts.")`. -/
def request_with_retries (action : Nat → Except PyErr α)
    (attempts : Nat) (retry_interval : Nat) : RWR α :=
  rwrGo action retry_interval attempts 0

end RetryingExecutor

section Truncate

/-!
## OpenAI._truncate (src/src/gptbot/classes/ai/openai.py 413-494)

The tiktoken encoder is abstracted as `enc : String → Nat`, standing for
`len(encoding.encode(content))`; everything else is transcribed from the
source.  `max_tokens_arg = some 0` is replaced by the configured default
because Python evaluates `max_tokens or self.max_tokens` and `0` is
falsy.
-/

/-- The content extraction of the truncation loop (openai.py 466-474):
a string content is used directly; otherwise `message["content"][0]`
is read (raising IndexError on an empty list) and its `"text"` key is
used when it is a string, else `""`. -/
def contentText : MContent → Except PyErr String
  | .str s => .ok s
  | .parts [] => .error .indexError
  | .parts (p :: _) =>
      match p with
      | .text s => .ok s
      | .imageUrl _ => .ok ""

/-- The accumulation loop of `_truncate` (openai.py 465-479): walk the
given scan order, add `len(encoding.encode(content)) + 1` per message,
and break the first time the running total would exceed `max_tokens`.
Returns the kept messages in scan order. -/
def truncLoop (enc : String → Nat) (max_tokens : Nat) :
    Nat → List MsgDict → Except PyErr (List MsgDict)
  | _, [] => .ok []
  | total, m :: rest =>
      match contentText m.content with
      | .error e => .error e
      | .ok c =>
          let tokens := enc c + 1
          if max_tokens < total + tokens then .ok []
          else
            match truncLoop enc max_tokens (total + tokens) rest with
            | .error e => .error e
            | .ok kept => .ok (m :: kept)

/-- `OpenAI._truncate(messages, max_tokens, model, system_message)`.
The final statement of the source (openai.py 490-494) evaluates
`system_message_dict + [truncated_messages[0]] + ...` where
`system_message_dict` is a `dict`: Python first evaluates
`truncated_messages[0]` (IndexError when nothing was kept) and then the
`dict + list` addition, which raises TypeError unconditionally.  The
only normal return is the empty list of the oversized-system-message
check at lines 452-457. -/
def truncate (enc : String → Nat) (max_tokens_arg : Option Nat)
    (cfg_max_tokens : Nat) (messages : List MsgDict)
    (system_message_arg : Option String)
    (default_system_message : String) : Except PyErr (List MsgDict) :=
  let max_tokens :=
    match max_tokens_arg with
    | some m => if m = 0 then cfg_max_tokens else m
    | none => cfg_max_tokens
  let system_message := system_message_arg.getD default_system_message
  let system_message_tokens :=
    if system_message = "" then 0 else enc system_message + 1
  if max_tokens < system_message_tokens then .ok []
  else
    match messages with
    | [] => .error .indexError
    | m0 :: rest =>
        match truncLoop enc max_tokens system_message_tokens
            (m0 :: rest.reverse) with
        | .error e => .error e
        | .ok kept =>
            if kept.isEmpty then .error .indexError else .error .typeError

end Truncate

section CallTool

/-!
## GPTBot.call_tool (src/src/gptbot/classes/bot.py 350-373) and its
invocation from openai.py (lines 677-679 and 786-788)

The tool registry keys of src/src/gptbot/tools/init (TOOLS) are listed
verbatim.  A tool's `run()` either returns a value or raises; `call_tool`
looks the tool up (KeyError gives "Error: Tool not found"), runs it, and
converts any exception other than KeyError — including `StopProcessing`
and `Handover`, which subclass `Exception` — into the string
"Error: Something went wrong calling tool ___".
-/

/-- The keys of the TOOLS registry (src/src/gptbot/tools). -/
def TOOLS_names : List String :=
  ["weather", "geocode", "dice", "websearch", "webrequest", "imagine",
   "imagedescription", "wikipedia", "datetime", "newroom"]

/-- The outcome of a tool's `run()` coroutine: a returned value (its
`str()` rendering) or a raised exception. -/
inductive RunOutcome where
  | ret (s : String)
  | raise (e : PyErr)
deriving Repr, DecidableEq

/-- The body of `GPTBot.call_tool` (bot.py 350-373).  `argsJsonOk` is
whether `json.loads(tool_call.function.arguments)` succeeds (it runs
before the try block, so a failure propagates).  Inside the try block,
`except KeyError` catches both a missing registry key and a KeyError
raised by the tool itself, and `except Exception` catches every other
exception — `StopProcessing` and `Handover` included — returning an
error string instead of letting them propagate. -/
def call_tool (tool : String) (argsJsonOk : Bool) (run : RunOutcome) :
    ToolRes :=
  if argsJsonOk = false then .exn .jsonDecodeError
  else if tool ∈ TOOLS_names then
    match run with
    | .ret s => .val (some s)
    | .raise .keyError => .val (some "Error: Tool not found")
    | .raise _ =>
        .val (some ("Error: Something went wrong calling tool " ++ tool))
  else .val (some "Error: Tool not found")

/-- The parameter names of `call_tool` as declared at bot.py 350:
`async def call_tool(self, tool_call: dict)` — no `room`, no `user`,
no `**kwargs`. -/
def call_tool_param_names : List String := ["self", "tool_call"]

/-- The keyword arguments passed by the invocation at openai.py 677-679:
`await self.bot.call_tool(tool_call, room=room, user=user)`. -/
def call_tool_invocation_kwargs : List String := ["room", "user"]

/-- Whether every keyword argument of the invocation binds to a declared
parameter.  When it does not, Python raises TypeError at the call site,
before the callee body runs. -/
def call_tool_kwargs_bind : Bool :=
  call_tool_invocation_kwargs.all (fun kw => kw ∈ call_tool_param_names)

/-- The semantics of the expression `await self.bot.call_tool(tool_call,
room=room, user=user)` as written in openai.py against the `call_tool`
declared in bot.py: if the keyword arguments bind, the body runs;
otherwise Python raises TypeError. -/
def bot_call_tool_as_invoked (tool : String) (argsJsonOk : Bool)
    (run : RunOutcome) : ToolRes :=
  if call_tool_kwargs_bind then call_tool tool argsJsonOk run
  else .exn .typeError

end CallTool

section Orchestrator

/-!
## OpenAI.generate_chat_response (src/src/gptbot/classes/ai/openai.py 496-888)

The provider, `json.loads` and the `await self.bot.call_tool(...)`
expression are supplied by an environment of oracles indexed by
invocation count; the function itself is a direct transcription of the
source.  The `inspect.stack()` frame count of lines 527-533 equals the
number of `generate_chat_response` frames on the await chain, which is
threaded as the explicit `depth` argument (1 at a top-level call, one
greater in each recursive call).  Recursion is bounded by a `fuel`
argument: a `none` result means the computation did not finish within
`fuel` nested calls.
-/

/-- `OpenAI._is_tool_model` (openai.py 146-147). -/
def isToolModel (m : String) : Bool :=
  m = "gpt-3.5-turbo" || m = "gpt-4-turbo" || m = "gpt-4o"

/-- The code-fence stripping of `OpenAI.json_decode` (openai.py 158-165). -/
def stripFences (data : String) : String :=
  let d :=
    if data.startsWith "```json\n" then data.drop 8
    else if data.startsWith "```\n" then data.drop 4
    else data
  if d.endsWith "```" then d.dropRight 3 else d

/-- `OpenAI.json_decode` (openai.py 158-170): strip code fences, then
`json.loads`; any parse failure yields Python `False`, modelled as
`none`. -/
def json_decode (jsonLoads : String → Option JVal) (data : String) :
    Option JVal :=
  jsonLoads (stripFences data)

/-- `"tool" in tool_object` on a parsed JSON object. -/
def jHasKey (fields : List (String × JVal)) (key : String) : Bool :=
  fields.any fun f => f.1 = key

/-- Whether a content part is a `{"type": "text"}` part
(the filter of openai.py 581-583). -/
def Part.isText : Part → Bool
  | .text _ => true
  | .imageUrl _ => false

/-- The outgoing-list computation of the model-override branch
(openai.py 573-590), as it affects the list sent to the provider:
string-content dicts and non-dict entries pass through, parts-content
dicts are reduced to their text parts, and dicts with no text part are
dropped.  (The in-place mutation this loop performs on the shared
message dicts is modelled separately by `strip_out_messages` below.) -/
def stripNonTextOut (msgs : List Msg) : List Msg :=
  msgs.filterMap fun m =>
    match m with
    | .obj _ => some m
    | .dict dd =>
        match dd.content with
        | .str _ => some m
        | .parts ps =>
            let message_content := ps.filter Part.isText
            if message_content.isEmpty then none
            else some (.dict ⟨dd.role, .parts message_content, dd.tool_call_id⟩)

/-- The tool-role flattening loop (openai.py 720-733 and 854-867):
dict messages keep their content, with `tool` roles rewritten to
`system` and their `tool_call_id` deleted; non-dict messages are
skipped (`else: continue`). -/
def flattenToolRoles (msgs : List Msg) : List Msg :=
  msgs.filterMap fun m =>
    match m with
    | .obj _ => none
    | .dict dd =>
        if dd.role = "tool" then some (.dict ⟨"system", dd.content, none⟩)
        else some (.dict dd)

/-- Python `xs[-1:]`. -/
def lastSlice (l : List α) : List α := l.drop (l.length - 1)

/-- The tool-dispatcher system message prepended in tool-emulation mode
(openai.py 602-633).  The prompt text is abbreviated; no property in
this file depends on its wording. -/
def emulationPreamble : Msg :=
  .dict ⟨"system", .str "You are a tool dispatcher for an AI chat model.", none⟩

/-- Static configuration read from `self` by `generate_chat_response`:
the configured chat model, the optional tool-capable override model, and
the ForceTools / EmulateTools flags. -/
structure Config where
  chatModel : String
  toolModel : Option String
  forceTools : Bool
  emulateTools : Bool
deriving Repr, DecidableEq

/-- The environment of external effects: `req n` is the outcome of the
(n+1)-th raw `chat.completions.create` invocation (each retry of
`_request_with_retries` consumes one index); `jsonLoads` is `json.loads`
(`none` = parse failure); `tool n` is the outcome of the (n+1)-th
evaluation of `await self.bot.call_tool(...)`. -/
structure Env where
  req : Nat → Except PyErr ProviderResp
  jsonLoads : String → Option JVal
  tool : Nat → ToolRes

/-- One provider dispatch: the model, messages and tool catalog of the
`chat.completions.create` request, plus the `generate_chat_response`
frame count at the time of dispatch. -/
structure Dispatch where
  model : String
  messages : List Msg
  hasTools : Bool
  depth : Nat
deriving Repr, DecidableEq

instance {ε α : Type} [DecidableEq ε] [DecidableEq α] :
    DecidableEq (Except ε α) := fun a b =>
  match a, b with
  | .ok x, .ok y =>
      if h : x = y then isTrue (h ▸ rfl)
      else isFalse (fun hc => h (Except.ok.inj hc))
  | .error x, .error y =>
      if h : x = y then isTrue (h ▸ rfl)
      else isFalse (fun hc => h (Except.error.inj hc))
  | .ok _, .error _ => isFalse (fun hc => Except.noConfusion hc)
  | .error _, .ok _ => isFalse (fun hc => Except.noConfusion hc)

/-- The observable result of a `generate_chat_response` call: the
returned `(result_text, tokens)` pair or the raised exception, the
number of raw provider invocations and of tool invocations consumed,
and the chronological list of provider dispatches made. -/
structure GcrOut where
  outcome : Except PyErr (RText × Nat)
  k : Nat
  t : Nat
  trace : List Dispatch
deriving Repr, DecidableEq

/-- Result of the tool-call loop of openai.py 674-698. -/
inductive ToolLoopRes where
  | done (responses : List Msg) (t : Nat)
  | stop (arg : Option String) (t : Nat)
  | handoverSig (t : Nat)
  | raised (e : PyErr) (t : Nat)
deriving Repr, DecidableEq

/-- The `for tool_call in choice.message.tool_calls` loop
(openai.py 674-698): each iteration evaluates `await
self.bot.call_tool(...)`; a returned non-`False` value appends a
tool-role response dict, `StopProcessing` and `Handover` abort the loop
with their signal, and any other exception propagates. -/
def toolLoop (env : Env) : List ToolCallObj → Nat → List Msg → ToolLoopRes
  | [], t, acc => .done acc t
  | tc :: rest, t, acc =>
      match env.tool t with
      | .val none => toolLoop env rest (t + 1) acc
      | .val (some s) =>
          toolLoop env rest (t + 1)
            (acc ++ [.dict ⟨"tool", .str s, some tc.id⟩])
      | .exn (.stopProcessing arg) => .stop arg (t + 1)
      | .exn .handover => .handoverSig (t + 1)
      | .exn e => .raised e (t + 1)

/-- `result_text, additional_tokens = await self.generate_chat_response(...)`
followed by the common return of openai.py 877-888: a child value
replaces `result_text` and its token count adds to this call's
`tokens_used`; a child exception propagates.  `d` is this call's
dispatch record and `pre` any traces of earlier nested calls. -/
def finishOut (d : Dispatch) (tokens_used : Nat) (pre : List Dispatch)
    (o : GcrOut) : GcrOut :=
  match o.outcome with
  | .ok (rt, add) => ⟨.ok (rt, tokens_used + add), o.k, o.t, d :: (pre ++ o.trace)⟩
  | .error e => ⟨.error e, o.k, o.t, d :: (pre ++ o.trace)⟩

/-- `return await self.generate_chat_response(...)`: the child's outcome
is returned as-is; only the trace is prefixed. -/
def passThrough (pre : List Dispatch) (r : Option GcrOut) : Option GcrOut :=
  r.map fun o => ⟨o.outcome, o.k, o.t, pre ++ o.trace⟩

/-- One activation of `OpenAI.generate_chat_response(messages, user,
room, allow_override, use_tools, model)` (openai.py 496-888), with the
recursive calls of the source abstracted as `recurse` (the same
function one fuel level down).  Arguments after `recurse`: `messages`,
`allow_override`, `use_tools`, `model`, then the frame count `depth`
and the oracle counters `k` (raw provider invocations) and `t` (tool
invocations). -/
def gcrStep (cfg : Config) (env : Env)
    (recurse : List Msg → Bool → Bool → Option String → Nat → Nat → Nat →
      Option GcrOut)
    (messages : List Msg) (allow_override use_tools : Bool)
    (model : Option String) (depth k t : Nat) : Option GcrOut :=
    let original_model := model.getD cfg.chatModel
    -- openai.py 526-547: the recursion-depth guard runs only when
    -- use_tools is true; past the ceiling the call returns the result of
    -- a single forced recursion with tools and override disabled.
    if use_tools ∧ 5 < depth then
      recurse messages false false (some original_model)
        (depth + 1) k t
    else
      let original_messages := messages
      -- openai.py 563-590: model override and outgoing-list stripping.
      let overrideOn : Bool :=
        allow_override && use_tools && cfg.toolModel.isSome &&
          !(isToolModel original_model || cfg.forceTools)
      let chat_model :=
        if overrideOn then cfg.toolModel.getD original_model
        else original_model
      let messages1 :=
        if overrideOn then stripNonTextOut messages else messages
      -- openai.py 594-633: tool-emulation preamble.
      let emulateOn : Bool :=
        use_tools && cfg.emulateTools && !cfg.forceTools &&
          !isToolModel chat_model
      let messages2 :=
        if emulateOn then emulationPreamble :: messages1 else messages1
      -- openai.py 645-646: the tool catalog is attached when
      -- (_is_tool_model(chat_model) and use_tools) or force_tools.
      let hasTools : Bool :=
        (isToolModel chat_model && use_tools) || cfg.forceTools
      let d : Dispatch := ⟨chat_model, messages2, hasTools, depth⟩
      -- openai.py 660-661: dispatch through _request_with_retries.
      let rr := request_with_retries (fun i => env.req (k + i)) 5 2
      let k1 := k + rr.invocations
      match rr.result with
      | .error e => some ⟨.error e, k1, t, [d]⟩
      | .ok resp =>
        let cm := resp.msg
        let result_text : RText :=
          match cm.content with
          | some s => .str s
          | none => .pyNone
        let tokens_used := resp.total_tokens.getD 0
        if !result_text.truthy && !cm.tool_calls.isEmpty then
          -- openai.py 673-761: native tool-call branch.
          match toolLoop env cm.tool_calls t [] with
          | .stop arg t1 =>
              some ⟨.ok (match arg with
                         | some s => .str s
                         | none => .pyFalse, 0), k1, t1, [d]⟩
          | .handoverSig t1 =>
              passThrough [d]
                (recurse original_messages false false
                  (some original_model) (depth + 1) k1 t1)
          | .raised e t1 => some ⟨.error e, k1, t1, [d]⟩
          | .done tool_responses t1 =>
            if tool_responses.isEmpty then
              some ⟨.ok (.pyFalse, tokens_used), k1, t1, [d]⟩
            else
              let spliced :=
                original_messages.dropLast ++ [Msg.obj cm] ++
                  tool_responses ++ lastSlice original_messages
              match recurse spliced true true
                  (some original_model) (depth + 1) k1 t1 with
              | none => none
              | some o1 =>
                match o1.outcome with
                | .error (.apiError c) =>
                  if c = "max_tokens" then
                    -- openai.py 714-745: flatten tool roles, retry
                    -- without tools.
                    match recurse
                        (flattenToolRoles original_messages) false false
                        (some original_model) (depth + 1) o1.k o1.t with
                    | none => none
                    | some o2 =>
                      match o2.outcome with
                      | .error (.apiError c2) =>
                        if c2 = "max_tokens" then
                          -- openai.py 747-759: a second max_tokens error
                          -- triggers a third attempt on the unmodified
                          -- original messages.
                          (recurse original_messages false false
                              (some original_model) (depth + 1) o2.k
                              o2.t).map
                            (finishOut d tokens_used (o1.trace ++ o2.trace))
                        else
                          -- openai.py 747-748 has no else: a non-
                          -- max_tokens APIError is swallowed and the
                          -- falsy result_text falls through to the
                          -- common return.
                          some ⟨.ok (result_text, tokens_used), o2.k, o2.t,
                                d :: (o1.trace ++ o2.trace)⟩
                      | _ => some (finishOut d tokens_used o1.trace o2)
                  else some (finishOut d tokens_used [] o1)
                | _ => some (finishOut d tokens_used [] o1)
        else
          match result_text with
          | .str s =>
            match json_decode env.jsonLoads s with
            | some (.obj fields) =>
              if jHasKey fields "tool" then
                -- openai.py 764-842: emulated tool call.
                match env.tool t with
                | .val none =>
                    -- openai.py 789-808: when the tool returns False,
                    -- the local tool_responses is never assigned and
                    -- line 808 raises UnboundLocalError.
                    some ⟨.error .nameError, k1, t + 1, [d]⟩
                | .val (some sres) =>
                    let spliced :=
                      original_messages.dropLast ++ [Msg.obj cm] ++
                        [Msg.dict ⟨"system", .str sres, none⟩] ++
                        lastSlice original_messages
                    match recurse spliced true true
                        (some original_model) (depth + 1) k1 (t + 1) with
                    | none => none
                    | some o1 =>
                      match o1.outcome with
                      | .error (.apiError c) =>
                        if c = "max_tokens" then
                          (recurse original_messages false false
                              (some original_model) (depth + 1) o1.k
                              o1.t).map
                            (finishOut d tokens_used o1.trace)
                        else some (finishOut d tokens_used [] o1)
                      | _ => some (finishOut d tokens_used [] o1)
                | .exn (.stopProcessing arg) =>
                    some ⟨.ok (match arg with
                               | some s2 => .str s2
                               | none => .pyFalse, 0), k1, t + 1, [d]⟩
                | .exn .handover =>
                    passThrough [d]
                      (recurse original_messages false false
                        (some original_model) (depth + 1) k1 (t + 1))
                | .exn e => some ⟨.error e, k1, t + 1, [d]⟩
              else
                -- openai.py 843-851: a JSON object without a "tool" key
                -- re-asks with tools and override disabled.
                (recurse original_messages false false
                    (some original_model) (depth + 1) k1 t).map
                  (finishOut d tokens_used [])
            | _ =>
              if ¬(original_model = chat_model) then
                -- openai.py 853-875: the override fallback flattens tool
                -- roles and recurses with allow_override=False (use_tools
                -- keeps its default True).
                (recurse (flattenToolRoles original_messages)
                    false true (some original_model) (depth + 1) k1 t).map
                  (finishOut d tokens_used [])
              else
                some ⟨.ok (result_text, tokens_used), k1, t, [d]⟩
          | _ =>
            -- openai.py 763 evaluates json_decode(result_text) even when
            -- result_text is None (content empty, no tool calls):
            -- None.startswith raises AttributeError.
            some ⟨.error .attributeError, k1, t, [d]⟩

/-- `OpenAI.generate_chat_response`, fuel-indexed: each nested call of
the source consumes one fuel level; a `none` result means the
computation did not finish within `fuel` nested activations. -/
def gcr (cfg : Config) (env : Env) :
    Nat → List Msg → Bool → Bool → Option String → Nat → Nat → Nat →
    Option GcrOut
  | 0, _, _, _, _, _, _, _ => none
  | fuel + 1, messages, allow_override, use_tools, model, depth, k, t =>
      gcrStep cfg env (gcr cfg env fuel) messages allow_override use_tools
        model depth k t

end Orchestrator

section StripAliasing

/-!
## Reference semantics of the override stripping (openai.py 561-590)

`original_messages = messages` (line 561) binds the same list object,
and the loop at 575-590 iterates over the same dict objects.  To capture
Python's reference semantics, message dicts live in a heap (a list of
cells) and the message list holds references into it; line 585
(`message["content"] = message_content`) is a heap update, visible
through every alias — including the dicts `original_messages` still
refers to.
-/

/-- An entry of a Python message list under reference semantics: a
reference to a heap cell holding a dict, or a non-dict object
(identified by a tag; the loop appends those unchanged). -/
inductive PyRef where
  | cell (i : Nat)
  | other (tag : Nat)
deriving Repr, DecidableEq

/-- The loop of openai.py 575-590 over heap references: string-content
dicts and non-dicts are appended to `out_messages` unchanged; a
parts-content dict with at least one text part is mutated in place
(heap update) and appended; one with no text part is dropped.  Returns
the final heap and `out_messages`. -/
def strip_out_messages (heap : List MsgDict) :
    List PyRef → List MsgDict × List PyRef
  | [] => (heap, [])
  | r :: rest =>
      match r with
      | .other g =>
          let p := strip_out_messages heap rest
          (p.1, .other g :: p.2)
      | .cell i =>
          match (heap.getD i ⟨"", .str "", none⟩).content with
          | .str _ =>
              let p := strip_out_messages heap rest
              (p.1, .cell i :: p.2)
          | .parts ps =>
              let message_content := ps.filter Part.isText
              if message_content.isEmpty then
                let p := strip_out_messages heap rest
                (p.1, p.2)
              else
                let dd := heap.getD i ⟨"", .str "", none⟩
                let heap2 :=
                  heap.set i ⟨dd.role, .parts message_content, dd.tool_call_id⟩
                let p := strip_out_messages heap2 rest
                (p.1, .cell i :: p.2)

end StripAliasing

section MessageAssembly

/-!
## OpenAI.prepare_messages (src/src/gptbot/classes/ai/openai.py 172-411)

The message-classification loop (lines 185-401), before the final
`_truncate` call of line 405.  Attachment downloads, speech-to-text and
the image/video encoding pipelines are supplied as oracles keyed by the
attachment URL.  Raw history entries mirror the nio event classes
dispatched on: RoomMessageText/Notice, RoomMessageAudio,
RoomMessageFile, RoomMessageImage, RoomMessageVideo (sibling classes —
an image is not a file).
-/

/-- A raw history message: sender, body (caption/filename for media),
event id, and attachment URL for media messages. -/
inductive RawMsg where
  | textMsg (sender body eventId : String)
  | audioMsg (sender body eventId url : String)
  | fileMsg (sender body eventId url : String)
  | imageMsg (sender body eventId url : String)
  | videoMsg (sender body eventId url : String)
deriving Repr, DecidableEq

/-- The event id of a raw message. -/
def RawMsg.eventId : RawMsg → String
  | .textMsg _ _ e => e
  | .audioMsg _ _ e _ => e
  | .fileMsg _ _ e _ => e
  | .imageMsg _ _ e _ => e
  | .videoMsg _ _ e _ => e

/-- The sender of a raw message. -/
def RawMsg.sender : RawMsg → String
  | .textMsg s _ _ => s
  | .audioMsg s _ _ _ => s
  | .fileMsg s _ _ _ => s
  | .imageMsg s _ _ _ => s
  | .videoMsg s _ _ _ => s

/-- The body of a raw message. -/
def RawMsg.body : RawMsg → String
  | .textMsg _ b _ => b
  | .audioMsg _ b _ _ => b
  | .fileMsg _ b _ _ => b
  | .imageMsg _ b _ _ => b
  | .videoMsg _ b _ _ => b

/-- The environment of `prepare_messages`: the bot's own user id, the
`supports_chat_images()` / `supports_chat_videos()` capability flags,
whether a room is given and configured for speech-to-text, and oracles
for the effectful pipelines: `download url` gives the UTF-8 decoding of
the downloaded body (`none` = UnicodeDecodeError) and its content type,
or a download failure; `stt url` is the combined download-and-transcribe
pipeline of the audio branch; `mediaEncode url` is the combined
download-downscale-encode pipeline of the image/video branches, giving
the base64 data URL. -/
structure PrepEnv where
  botUserId : String
  supportsImages : Bool
  supportsVideos : Bool
  hasRoom : Bool
  usesStt : Bool
  download : String → Except Unit (Option String × String)
  stt : String → Except Unit String
  mediaEncode : String → Except Unit String

/-- Sender role assignment (openai.py 186-191 and analogues):
assistant when the sender is the bot's own user id, else user. -/
def senderRole (env : PrepEnv) (m : RawMsg) : String :=
  if m.sender = env.botUserId then "assistant" else "user"

/-- The content wrapping applied throughout `prepare_messages`
(e.g. openai.py 193-197): a bare string when the model lacks image
support, else a one-element text-part list. -/
def wrapBody (env : PrepEnv) (b : String) : MContent :=
  if env.supportsImages then .parts [.text b] else .str b

/-- The deduplication guard of openai.py 192, 208 and 249-251:
`message == event or (not message.event_id == event.event_id)`
(nio events compare structurally). -/
def dedupOk (event m : RawMsg) : Bool :=
  m = event || !(m.eventId = event.eventId)

/-- The media attachment step shared by the image branch
(openai.py 270-340) and the video branch (342-400): on a successful
download-and-encode, the part is appended to the previous block when
that block exists and has the sender's role; otherwise the source reads
`self.matrix_client.user_id` (lines 314/374) on the OpenAI instance,
which has no such attribute, so AttributeError is raised inside the try
block and the except handler appends a system-role block carrying the
message body.  The same handler serves download and processing
failures. -/
def mediaStep (env : PrepEnv) (acc : List MsgDict) (m : RawMsg)
    (url : String) : List MsgDict :=
  match env.mediaEncode url with
  | .error _ => acc ++ [⟨"system", wrapBody env m.body, none⟩]
  | .ok encoded =>
      let role := senderRole env m
      match acc.getLast? with
      | some lastB =>
          if lastB.role = role then
            match lastB.content with
            | .parts ps =>
                acc.dropLast ++ [⟨lastB.role, .parts (ps ++ [.imageUrl encoded]), lastB.tool_call_id⟩]
            | .str _ =>
                -- parent["content"].append on a str raises inside the
                -- try block; the handler appends the fallback block.
                acc ++ [⟨"system", wrapBody env m.body, none⟩]
          else acc ++ [⟨"system", wrapBody env m.body, none⟩]
      | none => acc ++ [⟨"system", wrapBody env m.body, none⟩]

/-- One iteration of the `for message in messages` loop of
`prepare_messages` (openai.py 185-401), transcribing the elif chain:
text/notice; audio or .mp3 file; file; image (only when
`supports_chat_images()`); video or .mp4 file (only when
`supports_chat_videos()`); any other message falls through and
contributes nothing. -/
def prepStep (env : PrepEnv) (event : RawMsg) (acc : List MsgDict)
    (m : RawMsg) : List MsgDict :=
  match m with
  | .textMsg _ b _ =>
      if dedupOk event m then
        acc ++ [⟨senderRole env m, wrapBody env b, none⟩]
      else acc
  | .audioMsg _ b _ url =>
      if dedupOk event m then
        let message_text :=
          if env.hasRoom ∧ env.usesStt then
            match env.stt url with
            | .ok txt => txt
            | .error _ => b
          else b
        acc ++ [⟨senderRole env m, wrapBody env message_text, none⟩]
      else acc
  | .fileMsg _ b _ url =>
      if b.endsWith ".mp3" then
        -- openai.py 200-202: an .mp3 RoomMessageFile is handled by the
        -- audio branch.
        if dedupOk event m then
          let message_text :=
            if env.hasRoom ∧ env.usesStt then
              match env.stt url with
              | .ok txt => txt
              | .error _ => b
            else b
          acc ++ [⟨senderRole env m, wrapBody env message_text, none⟩]
        else acc
      else
        -- openai.py 232-268: the file branch (it precedes the video
        -- branch, so it also captures .mp4 RoomMessageFiles).
        match env.download url with
        | .error _ => acc ++ [⟨"system", wrapBody env b, none⟩]
        | .ok (decoded, _) =>
            match decoded with
            | none => acc
            | some txt =>
                if txt = "" then acc
                else if dedupOk event m then
                  acc ++ [⟨senderRole env m, wrapBody env txt, none⟩]
                else acc
  | .imageMsg _ _ _ url =>
      if env.supportsImages then mediaStep env acc m url else acc
  | .videoMsg _ _ _ url =>
      if env.supportsVideos then mediaStep env acc m url else acc

/-- The classification loop of `prepare_messages` (openai.py 179-402):
`messages.append(event)` then the elif chain over each message, in
order, accumulating `chat_messages`.  (The subsequent `_truncate` call
of line 405 is modelled by `truncate` above.) -/
def prepare_messages_core (env : PrepEnv) (event : RawMsg)
    (messages : List RawMsg) : List MsgDict :=
  (messages ++ [event]).foldl (prepStep env event) []

end MessageAssembly

section Scenarios

/-- The default configuration with the stock "gpt-4o" chat model, no
override model and no ForceTools/EmulateTools. -/
def cfgPlain : Config := ⟨"gpt-4o", none, false, false⟩

/-- A one-message history. -/
def msgsHi : List Msg := [.dict ⟨"user", .str "hi", none⟩]

/-- A provider that answers the empty JSON object on every invocation
(the reply the tool-emulation prompt itself requests when no tool is
needed). -/
def respEmptyObj : ProviderResp := ⟨⟨some "\x7b\x7d", []⟩, some 5⟩

/-- Environment for the divergence scenario: every provider call returns
the text `\x7b\x7d`, which `json.loads` parses as the empty object. -/
def envLoop : Env :=
  ⟨fun _ => .ok respEmptyObj,
   fun s => if s = "\x7b\x7d" then some (.obj []) else none,
   fun _ => .val none⟩

/-- A provider response requesting one call of the imagine tool. -/
def tcImagine : ToolCallObj := ⟨"call0", "imagine", "\x7b\x7d"⟩

/-- Environment in which the provider requests the imagine tool (whose
`run()` raises `StopProcessing("Created an image.")` after posting the
image, src/src/gptbot/tools/imagine.py 34 / newroom.py 57) and the tool
invocation is evaluated against bot.py's `call_tool` as invoked from
openai.py 677. -/
def envStopTool : Env :=
  ⟨fun _ => .ok ⟨⟨none, [tcImagine]⟩, some 11⟩,
   fun _ => none,
   fun _ => bot_call_tool_as_invoked "imagine" true
     (.raise (.stopProcessing (some "Created an image.")))⟩

/-- A provider response requesting one call of the imagedescription
tool. -/
def tcImgDesc : ToolCallObj := ⟨"call1", "imagedescription", "\x7b\x7d"⟩

/-- Environment in which the provider requests the imagedescription tool
(whose `run()` always raises `Handover`,
src/src/gptbot/tools/imagedescription.py 24). -/
def envHandoverTool : Env :=
  ⟨fun _ => .ok ⟨⟨none, [tcImgDesc]⟩, some 9⟩,
   fun _ => none,
   fun _ => bot_call_tool_as_invoked "imagedescription" true
     (.raise .handover)⟩

/-- A provider response requesting one call of the weather tool. -/
def tcWeather : ToolCallObj := ⟨"call2", "weather", "\x7b\x7d"⟩

/-- Environment for the context-error scenario: the first raw provider
invocation requests the weather tool, every later raw invocation raises
`openai.APIError` with code `max_tokens`; the tool invocation yields a
text outcome. -/
def envCtxErr : Env :=
  ⟨fun kk => if kk = 0 then .ok ⟨⟨none, [tcWeather]⟩, some 12⟩
             else .error (.apiError "max_tokens"),
   fun _ => none,
   fun _ => .val (some "22 degrees")⟩

/-- The message sequence the re-dispatch after the weather round-trip
receives: `original_messages[:-1] + [choice.message] + tool_responses +
original_messages[-1:]` for the one-message history `msgsHi`. -/
def splicedHi : List Msg :=
  msgsHi.dropLast ++ [Msg.obj ⟨none, [tcWeather]⟩] ++
    [Msg.dict ⟨"tool", .str "22 degrees", some "call2"⟩] ++ lastSlice msgsHi

/-- Heap of one message dict holding a text part and an image part, as
assembled for a vision-capable model. -/
def heapMixed : List MsgDict :=
  [⟨"user", .parts [.text "look at this", .imageUrl "mxc-photo"], none⟩]

/-- Two tool calls in one provider response. -/
def tcW1 : ToolCallObj := ⟨"cw1", "weather", "\x7b\x7d"⟩

/-- Second of the two tool calls. -/
def tcW2 : ToolCallObj := ⟨"cw2", "geocode", "\x7b\x7d"⟩

/-- The assistant message carrying the two tool calls. -/
def cmTwoTools : ChoiceMsg := ⟨none, [tcW1, tcW2]⟩

/-- Environment for the Text-outcome round-trip: the first raw provider
invocation requests two tools, later invocations answer plain text; the
two tool invocations yield the text outcomes `r1` and `r2`. -/
def envTwoTools (r1 r2 : String) : Env :=
  ⟨fun kk => if kk = 0 then .ok ⟨cmTwoTools, some 10⟩
             else .ok ⟨⟨some "done", []⟩, some 5⟩,
   fun _ => none,
   fun i => if i = 0 then .val (some r1)
            else if i = 1 then .val (some r2) else .val none⟩

/-- Configuration with a non-tool chat model and a configured tool-
capable router model. -/
def cfgRouter : Config := ⟨"llama3", some "mistral-large", false, false⟩

/-- History holding an image-only message and a text message. -/
def msgsImgText : List Msg :=
  [.dict ⟨"user", .parts [.imageUrl "mxc-photo"], none⟩,
   .dict ⟨"user", .str "hi", none⟩]

/-- One tool call for the router scenario. -/
def tcRouter : ToolCallObj := ⟨"c7", "weather", "\x7b\x7d"⟩

/-- Environment for the router scenario: the first raw invocation
requests the weather tool, the second answers "done", the third
"final"; the tool yields the text "ok". -/
def envRouter : Env :=
  ⟨fun kk => if kk = 0 then .ok ⟨⟨none, [tcRouter]⟩, some 3⟩
             else if kk = 1 then .ok ⟨⟨some "done", []⟩, some 4⟩
             else .ok ⟨⟨some "final", []⟩, some 2⟩,
   fun _ => none,
   fun _ => .val (some "ok")⟩

/-- The spliced sequence of the router scenario. -/
def splicedRouter : List Msg :=
  msgsImgText.dropLast ++ [Msg.obj ⟨none, [tcRouter]⟩] ++
    [Msg.dict ⟨"tool", .str "ok", some "c7"⟩] ++ lastSlice msgsImgText

/-- Environment for the non-empty-JSON-text scenario: the first raw
invocation answers the text `\x7b\x7d`; the next one requests a tool
whose invocation returns Python `False`. -/
def envBraceThenFalse : Env :=
  ⟨fun kk => if kk = 0 then .ok ⟨⟨some "\x7b\x7d", []⟩, some 3⟩
             else .ok ⟨⟨none, [tcW1]⟩, some 4⟩,
   fun s => if s = "\x7b\x7d" then some (.obj []) else none,
   fun _ => .val none⟩

/-- Assembly environment of a model without image support (all
attachment pipelines failing is irrelevant to the scenarios used). -/
def envNoVision : PrepEnv :=
  ⟨"@gptbot:example.com", false, false, false, false,
   fun _ => .error (), fun _ => .error (), fun _ => .error ()⟩

end Scenarios

section ClaimTheorems

/-- C1.  openai.py 413-494 (`OpenAI._truncate`): on a well-formed
two-message history with a 100-token budget and a short system message —
an input on which the claim asserts a non-empty, budget-bounded result
containing the system and final blocks — the function raises TypeError:
its final statement adds `system_message_dict` (a dict, not a
one-element list) to a list.  No call that passes the system-message
check can return normally, so the claimed budget invariant never holds
of an actual return value. -/
theorem truncate_always_raises_type_error :
    truncate String.length (some 100) 4000
      [⟨"user", .str "hi", none⟩, ⟨"user", .str "bye", none⟩]
      (some "sys") "default system" = .error .typeError := by
  rfl

/-- C3.  openai.py 673-698 with bot.py 350-373: when the provider
requests the imagine tool (which signals StopWithAnswer by raising
`StopProcessing`), `generate_chat_response` does not return the tool's
answer: the invocation `self.bot.call_tool(tool_call, room=room,
user=user)` raises TypeError, because `call_tool` declares no `room` or
`user` parameter; and `call_tool`'s own body would not let
`StopProcessing` escape either — its `except Exception` converts it to
an error string, as the second conjunct evaluates. -/
theorem stop_processing_never_reaches_orchestrator :
    gcr cfgPlain envStopTool 5 msgsHi true true none 1 0 0 =
      some ⟨.error .typeError, 1, 1, [⟨"gpt-4o", msgsHi, true, 1⟩]⟩ ∧
    call_tool "imagine" true
        (.raise (.stopProcessing (some "Created an image."))) =
      .val (some "Error: Something went wrong calling tool imagine") := by
  exact ⟨rfl, rfl⟩

/-- C4.  openai.py 690-698 with bot.py 350-373: when the provider
requests the imagedescription tool (which raises `Handover`), no
provider call replaying `originalHistory` ever happens — the trace holds
exactly the one initial dispatch, after which the tool invocation's
TypeError propagates; and `call_tool`'s body would swallow `Handover`
into an error string anyway, as the second conjunct evaluates. -/
theorem handover_never_reaches_orchestrator :
    gcr cfgPlain envHandoverTool 5 msgsHi true true none 1 0 0 =
      some ⟨.error .typeError, 1, 1, [⟨"gpt-4o", msgsHi, true, 1⟩]⟩ ∧
    call_tool "imagedescription" true (.raise .handover) =
      .val (some "Error: Something went wrong calling tool imagedescription") := by
  exact ⟨rfl, rfl⟩

/-- C5.  openai.py 561-590: the override stripping mutates the shared
message dicts.  On a heap holding one message with a text part and an
image part, the loop's in-place assignment `message["content"] =
message_content` (line 585) leaves the heap cell — still referenced by
`original_messages` — without its image part, while the
`original_messages` reference list itself is unchanged. -/
theorem override_strip_mutates_original_history :
    strip_out_messages heapMixed [.cell 0] =
      ([⟨"user", .parts [.text "look at this"], none⟩], [.cell 0]) ∧
    (strip_out_messages heapMixed [.cell 0]).1 ≠ heapMixed := by
  exact ⟨rfl, by decide⟩

/-- C6.  openai.py 714-761 with base.py 52-76: after the weather
round-trip, the re-dispatch fails with `openai.APIError("max_tokens")`
on every raw attempt — yet no flattened retry happens.
`_request_with_retries` catches the APIError, retries the identical
request five times, and raises the plain Exception "Request failed
after all attempts.", which the `except openai.APIError` handler does
not match; the failure propagates after exactly two dispatches (the
initial one and the spliced re-dispatch), with no flattened third
request. -/
theorem context_error_fallback_unreachable :
    gcr cfgPlain envCtxErr 5 msgsHi true true none 1 0 0 =
      some ⟨.error (.generic "Request failed after all attempts."), 6, 1,
        [⟨"gpt-4o", msgsHi, true, 1⟩, ⟨"gpt-4o", splicedHi, true, 2⟩]⟩ := by
  rfl

/-- Auxiliary for C2: with tools disabled the depth guard of openai.py
526-547 never runs; each level dispatches, receives the empty JSON
object, and recurses once more with tools disabled (openai.py 843-851),
so no amount of fuel completes the call. -/
theorem gcr_no_tools_empty_json_loop :
    ∀ (fuel : Nat) (msgs : List Msg) (depth k t : Nat),
      gcr cfgPlain envLoop fuel msgs false false (some "gpt-4o") depth k t
        = none := by
  intro fuel
  induction fuel with
  | zero => intro msgs depth k t; rfl
  | succ n ih =>
      intro msgs depth k t
      have hstep :
          gcr cfgPlain envLoop (n + 1) msgs false false (some "gpt-4o")
              depth k t =
            (gcr cfgPlain envLoop n msgs false false (some "gpt-4o")
                (depth + 1) (k + 1) t).map
              (finishOut ⟨"gpt-4o", msgs, false, depth⟩ 5 []) := rfl
      rw [hstep, ih]
      rfl

/-- C2.  openai.py 522-547 with 843-851: the recursion-depth guard runs
only when `use_tools` is true, but the recursion taken after a JSON-
object response without a "tool" key passes `use_tools=False`, so it is
never depth-checked.  Against a provider whose every response is the
empty JSON object, the call dispatches once per recursion level and
recurses forever: for every fuel bound the run is incomplete, so no
bound of 6 provider round-trips (nor any constant bound) holds, and the
forced non-tool attempt is not final. -/
theorem generate_chat_response_empty_json_loop_diverges :
    ∀ (fuel : Nat) (msgs : List Msg),
      gcr cfgPlain envLoop fuel msgs true true none 1 0 0 = none := by
  intro fuel msgs
  cases fuel with
  | zero => rfl
  | succ n =>
      have hstep :
          gcr cfgPlain envLoop (n + 1) msgs true true none 1 0 0 =
            (gcr cfgPlain envLoop n msgs false false (some "gpt-4o") 2 1 0).map
              (finishOut ⟨"gpt-4o", msgs, true, 1⟩ 5 []) := rfl
      rw [hstep, gcr_no_tools_empty_json_loop]
      rfl

/-- C7 amended theorem: after a round-trip whose two tool calls produce
Text outcomes, the recursive call receives exactly
`original[:-1] + [assistant tool-call message] + [one tool-result block
per call, in order] + original[-1:]` at a frame count one greater
(depth 2 against the top-level 1), and — the model override and tool
emulation not applying to the recursive call — its provider dispatch
receives exactly that sequence. -/
theorem tool_splice_redispatch_amended (msgs : List Msg) (r1 r2 : String) :
    gcr cfgPlain (envTwoTools r1 r2) 5 msgs true true none 1 0 0 =
      some ⟨.ok (.str "done", 15), 2, 2,
        [⟨"gpt-4o", msgs, true, 1⟩,
         ⟨"gpt-4o",
          msgs.dropLast ++ [Msg.obj cmTwoTools] ++
            [Msg.dict ⟨"tool", .str r1, some "cw1"⟩,
             Msg.dict ⟨"tool", .str r2, some "cw2"⟩] ++ lastSlice msgs,
          true, 2⟩]⟩ := rfl

/-- C7 counterexample: under a router-model configuration, the dispatch
after the splice does not receive the spliced sequence: the recursive
call of openai.py 711-713 leaves `allow_override` and `use_tools` at
their defaults, so the override stripping runs again on the spliced
list and drops the image-only message before dispatching. -/
theorem tool_splice_redispatch_not_exact :
    gcr cfgRouter envRouter 5 msgsImgText true true none 1 0 0 =
      some ⟨.ok (.str "final", 9), 3, 1,
        [⟨"mistral-large", [.dict ⟨"user", .str "hi", none⟩], false, 1⟩,
         ⟨"mistral-large",
          [Msg.obj ⟨none, [tcRouter]⟩,
           Msg.dict ⟨"tool", .str "ok", some "c7"⟩,
           Msg.dict ⟨"user", .str "hi", none⟩], false, 2⟩,
         ⟨"llama3",
          [Msg.dict ⟨"user", .parts [.imageUrl "mxc-photo"], none⟩,
           Msg.dict ⟨"system", .str "ok", none⟩,
           Msg.dict ⟨"user", .str "hi", none⟩], false, 3⟩]⟩ ∧
    [Msg.obj ⟨none, [tcRouter]⟩,
     Msg.dict ⟨"tool", .str "ok", some "c7"⟩,
     Msg.dict ⟨"user", .str "hi", none⟩] ≠ splicedRouter :=
  ⟨rfl, by decide⟩

/-- C9 counterexample: with a model lacking image support
(`supports_chat_images()` false), an image message with caption
"cat pic" contributes nothing to the assembled output — neither an
image part nor its caption appears — while the triggering text message
is assembled normally. -/
theorem image_without_support_dropped_not_captioned :
    prepare_messages_core envNoVision (.textMsg "@u:example.com" "hi" "e1")
        [.imageMsg "@u:example.com" "cat pic" "e0" "mxc-cat"] =
      [⟨"user", .str "hi", none⟩] ∧
    (prepare_messages_core envNoVision (.textMsg "@u:example.com" "hi" "e1")
        [.imageMsg "@u:example.com" "cat pic" "e0" "mxc-cat"]).all
      (fun dd => !(dd.content = MContent.str "cat pic" ||
                   dd.content = MContent.parts [.text "cat pic"])) = true :=
  ⟨rfl, by decide⟩

/-- C9 amended theorem: when the model lacks image support, the
assembly loop of openai.py 185-401 drops every image message entirely —
the output for a history containing an image message equals the output
for the same history without it. -/
theorem image_without_support_dropped_amended (env : PrepEnv)
    (h : env.supportsImages = false) (event : RawMsg)
    (pre post : List RawMsg) (s b eid url : String) :
    prepare_messages_core env event
        (pre ++ [.imageMsg s b eid url] ++ post) =
      prepare_messages_core env event (pre ++ post) := by
  have hstep : ∀ acc,
      prepStep env event acc (RawMsg.imageMsg s b eid url) = acc := by
    intro acc
    simp [prepStep, h]
  simp only [prepare_messages_core, List.append_assoc, List.cons_append,
    List.nil_append, List.foldl_append, List.foldl_cons, List.foldl_nil,
    hstep]

/-- Witness of the C9 amended theorem at a concrete history. -/
theorem image_without_support_dropped_amended_witness :
    prepare_messages_core envNoVision (.textMsg "@u:example.com" "q" "e9")
        ([] ++ [.imageMsg "@u:example.com" "pic" "e8" "mxc-p"] ++
          [.textMsg "@u:example.com" "x" "e7"]) =
      prepare_messages_core envNoVision (.textMsg "@u:example.com" "q" "e9")
        ([] ++ [.textMsg "@u:example.com" "x" "e7"]) :=
  image_without_support_dropped_amended envNoVision rfl
    (.textMsg "@u:example.com" "q" "e9") []
    [.textMsg "@u:example.com" "x" "e7"] "@u:example.com" "pic" "e8" "mxc-p"

/-- C10 counterexample: the provider answers the non-empty text
`\x7b\x7d`; it parses as a JSON object without a "tool" key, so
openai.py 843-851 recurses instead of returning it, and the chain ends
returning `False` (the second response's tool round-trip yields no tool
responses) — the non-empty response text is not the final answer. -/
theorem nonempty_json_text_not_final_answer :
    gcr cfgPlain envBraceThenFalse 5 msgsHi true true none 1 0 0 =
      some ⟨.ok (.pyFalse, 7), 2, 1,
        [⟨"gpt-4o", msgsHi, true, 1⟩, ⟨"gpt-4o", msgsHi, false, 2⟩]⟩ ∧
    ¬(RText.pyFalse = RText.str "\x7b\x7d") :=
  ⟨rfl, by decide⟩

/-- Auxiliary for C8: the retry loop makes at most `calls + n` total
invocations. -/
theorem rwrGo_invocations_le {α : Type} (action : Nat → Except PyErr α)
    (interval : Nat) :
    ∀ (n calls : Nat), (rwrGo action interval n calls).invocations ≤ calls + n := by
  intro n
  induction n with
  | zero => intro calls; simp [rwrGo]
  | succ n ih =>
      intro calls
      cases h : action calls with
      | ok r =>
          simp only [rwrGo, h]
          omega
      | error e =>
          have := ih (calls + 1)
          simp only [rwrGo, h]
          omega

/-- Auxiliary for C8: when every attempted invocation fails, the loop
exhausts its attempts, sleeps after each failure, and raises the
terminal exception. -/
theorem rwrGo_all_fail {α : Type} (action : Nat → Except PyErr α)
    (interval : Nat) :
    ∀ (n calls : Nat),
      (∀ i, calls ≤ i → i < calls + n → (action i).isOk = false) →
      rwrGo action interval n calls =
        ⟨.error (.generic "Request failed after all attempts."), calls + n,
          List.replicate (calls + n) interval⟩ := by
  intro n
  induction n with
  | zero => intro calls _; simp [rwrGo]
  | succ n ih =>
      intro calls hfail
      cases h : action calls with
      | ok r =>
          have hcontra := hfail calls (Nat.le_refl _) (by omega)
          rw [h] at hcontra
          simp [Except.isOk, Except.toBool] at hcontra
      | error e =>
          have heq : calls + (n + 1) = (calls + 1) + n := by omega
          simp only [rwrGo, h, heq]
          exact ih (calls + 1) (fun i h1 h2 => hfail i (by omega) (by omega))

/-- Auxiliary for C8: the loop returns the first successful result
unchanged after `j` failed invocations. -/
theorem rwrGo_first_success {α : Type} (action : Nat → Except PyErr α)
    (interval : Nat) :
    ∀ (n calls j : Nat) (v : α), calls ≤ j → j < calls + n →
      action j = .ok v →
      (∀ i, calls ≤ i → i < j → (action i).isOk = false) →
      rwrGo action interval n calls = ⟨.ok v, j + 1, List.replicate j interval⟩ := by
  intro n
  induction n with
  | zero => intro calls j v h1 h2 _ _; omega
  | succ n ih =>
      intro calls j v h1 h2 hok hfail
      rcases Nat.eq_or_lt_of_le h1 with heq | hlt
      · subst heq
        simp [rwrGo, hok]
      · cases h : action calls with
        | ok r =>
            have hcontra := hfail calls (Nat.le_refl _) hlt
            rw [h] at hcontra
            simp [Except.isOk, Except.toBool] at hcontra
        | error e =>
            simp only [rwrGo, h]
            exact ih (calls + 1) j v (by omega) (by omega) hok
              (fun i hi1 hi2 => hfail i (by omega) hi2)

/-- C8.  base.py 52-76: with the default attempts=5, retry_interval=2,
`_request_with_retries` invokes the action at most 5 times, sleeping the
fixed 2-second interval after each failed invocation; it returns the
first successful result unchanged; and once all 5 invocations have
failed it raises the terminal
`Exception("Request failed after all attempts.")`.  The function body
has no user-notification effect: its only effects are the recorded
action invocations and sleeps. -/
theorem request_with_retries_bounded_and_terminal {α : Type}
    (action : Nat → Except PyErr α) :
    (request_with_retries action 5 2).invocations ≤ 5 ∧
    ((∀ i, i < 5 → (action i).isOk = false) →
      request_with_retries action 5 2 =
        ⟨.error (.generic "Request failed after all attempts."), 5,
          [2, 2, 2, 2, 2]⟩) ∧
    (∀ j v, j < 5 → action j = .ok v →
      (∀ i, i < j → (action i).isOk = false) →
      request_with_retries action 5 2 =
        ⟨.ok v, j + 1, List.replicate j 2⟩) := by
  refine ⟨?_, ?_, ?_⟩
  · exact rwrGo_invocations_le action 2 5 0
  · intro hfail
    exact rwrGo_all_fail action 2 5 0 (fun i _ h2 => hfail i (by omega))
  · intro j v hj hok hfail
    exact rwrGo_first_success action 2 5 0 j v (by omega) (by omega) hok
      (fun i _ h2 => hfail i h2)

/-- Witness of the C8 theorem at an action succeeding on its third
invocation: two failures, two sleeps, the third result returned
unchanged. -/
theorem request_with_retries_bounded_and_terminal_witness :
    request_with_retries
        (fun i => if i = 2 then (.ok 7 : Except PyErr Nat)
                  else .error .typeError) 5 2 =
      ⟨.ok 7, 3, List.replicate 2 2⟩ :=
  (request_with_retries_bounded_and_terminal
      (fun i => if i = 2 then (.ok 7 : Except PyErr Nat)
                else .error .typeError)).2.2 2 7 (by omega) rfl
    (by intro i hi
        interval_cases i <;> rfl)

/-- C10 amended theorem: when the response text is non-empty, none of
the response's native tool calls are executed — the tool-invocation
counter stays 0 whatever `tool_calls` the response carries — and the
text is returned as the final answer provided it does not parse as a
JSON object and the active model equals the original model. -/
theorem nonempty_text_final_answer_amended (msgs : List Msg) (s : String)
    (tcs : List ToolCallObj) (jl : String → Option JVal) (tl : Nat → ToolRes)
    (hs : ¬(s = "")) (hjl : jl (stripFences s) = none) :
    gcr cfgPlain ⟨fun _ => .ok ⟨⟨some s, tcs⟩, some 7⟩, jl, tl⟩ 5 msgs
        true true none 1 0 0 =
      some ⟨.ok (.str s, 7), 1, 0, [⟨"gpt-4o", msgs, true, 1⟩]⟩ := by
  have hbeq : (s == "") = false := beq_eq_false_iff_ne.mpr hs
  have hrr :
      request_with_retries
        (fun i =>
          (⟨fun _ => .ok ⟨⟨some s, tcs⟩, some 7⟩, jl, tl⟩ : Env).req (0 + i))
        5 2 = ⟨.ok ⟨⟨some s, tcs⟩, some 7⟩, 1, []⟩ := rfl
  show gcrStep cfgPlain ⟨fun _ => .ok ⟨⟨some s, tcs⟩, some 7⟩, jl, tl⟩
      (gcr cfgPlain ⟨fun _ => .ok ⟨⟨some s, tcs⟩, some 7⟩, jl, tl⟩ 4)
      msgs true true none 1 0 0 = _
  simp only [gcrStep]
  simp [hrr, RText.truthy, hbeq, json_decode, hjl, isToolModel, cfgPlain,
    lastSlice]

/-- Witness of the C10 amended theorem: the non-empty non-JSON answer
"hello" is returned as the final result with no tool invocation, even
though the response carries a tool call. -/
theorem nonempty_text_final_answer_amended_witness :
    gcr cfgPlain ⟨fun _ => .ok ⟨⟨some "hello", [tcW1]⟩, some 7⟩,
        fun _ => none, fun _ => .val none⟩ 5 msgsHi true true none 1 0 0 =
      some ⟨.ok (.str "hello", 7), 1, 0, [⟨"gpt-4o", msgsHi, true, 1⟩]⟩ :=
  nonempty_text_final_answer_amended msgsHi "hello" [tcW1] (fun _ => none)
    (fun _ => .val none) (by decide) rfl

end ClaimTheorems

end GB
